import Mathlib

set_option maxHeartbeats 1000000

/-! Shallow embedding of the OAuth client-credentials token flow shared by
the Workfront and AEM MCP adapters, together with the startup
configuration check and the tool-invocation error boundary.

Network I/O is modelled by an oracle threaded through the state: the
pending responses of the IMS token endpoint and of the downstream API,
consumed in order. Each issued request is recorded: token-endpoint POSTs
as a counter, downstream API requests as the list of the bearer values of
their Authorization headers, in order of issue, none standing for a
request issued without an Authorization header. A JavaScript
`throw` is modelled as `Except.error` carrying the message string built
exactly as the source builds it; `await response.json()` is abstracted to
the raw body string. -/

/-- Truthiness of a JavaScript string-or-null/undefined value: null,
undefined and the empty string are falsy, every other string is truthy. -/
def jsTruthy : Option String → Bool
  | none => false
  | some s => s != ""

/-- JavaScript `v || d` on a string-or-undefined value. -/
def jsOr (v : Option String) (d : String) : String :=
  if jsTruthy v then v.getD "" else d

/-- An HTTP response as the adapters observe it: the numeric status, the
`access_token` field of the JSON body when present, and the raw body text
(standing also for the JSON.stringify of the parsed data). -/
structure HttpResponse where
  status : Nat
  accessToken : Option String
  body : String
  deriving Repr, DecidableEq

/-- fetch Response.ok: status in the inclusive range 200-299. -/
def HttpResponse.ok (r : HttpResponse) : Bool :=
  200 ≤ r.status && r.status < 300

/-- Process-wide mutable state of one adapter plus the network oracle.
`bearerToken` is the single cached-token slot (WORKFRONT_CONFIG.bearerToken
resp. AEM_CONFIG.bearerToken). `tokenResponses` and `apiResponses` are the
pending responses of the token endpoint and of the downstream API.
`tokenFetches` counts POSTs issued to the token endpoint; `apiFetches`
records, in order, the Authorization bearer value of each issued
downstream request, or none when that request carries no Authorization
header at all. -/
structure AdapterState where
  bearerToken : Option String
  tokenResponses : List HttpResponse
  apiResponses : List HttpResponse
  tokenFetches : Nat
  apiFetches : List (Option String)
  deriving Repr, DecidableEq

/-- The options object a Workfront tool passes to makeWorkfrontRequest,
restricted to what the model observes: the optional custom headers
object, as a name-value list ({} and absent fields beyond headers do not
affect the Authorization tracking). The get tools pass no options
(headers none); createProject, createTask and createTaskPredecessor pass
a headers object holding only a Content-Type entry. -/
structure RequestOptions where
  headers : Option (List (String × String))
  deriving Repr, DecidableEq

namespace Workfront

/-- getBearerToken of src/workfront/index.js: one POST to the IMS token
endpoint; a non-2xx response throws the authentication error carrying
status and body; a 2xx body whose access_token is absent or empty throws
the no-token error; otherwise the token is stored in the process-wide
cache and returned. The surrounding try/catch rewraps every failure as
"Token retrieval error: ...". An exhausted oracle models a network-level
fetch rejection. -/
def getBearerToken (s : AdapterState) : Except String String × AdapterState :=
  match s.tokenResponses with
  | [] =>
      (Except.error "Token retrieval error: fetch failed",
       { s with tokenFetches := s.tokenFetches + 1 })
  | r :: rest =>
      let s1 : AdapterState :=
        { s with tokenResponses := rest, tokenFetches := s.tokenFetches + 1 }
      if !r.ok then
        (Except.error ("Token retrieval error: Adobe IMS authentication error: "
            ++ toString r.status ++ " - " ++ r.body), s1)
      else
        match r.accessToken with
        | none =>
            (Except.error "Token retrieval error: No access_token received from Adobe IMS", s1)
        | some t =>
            if t == "" then
              (Except.error "Token retrieval error: No access_token received from Adobe IMS", s1)
            else
              (Except.ok t, { s1 with bearerToken := some t })

/-- ensureValidToken of src/workfront/index.js: a pure presence check on
the cached slot; acquires only when the slot is falsy, then returns
whatever the slot holds. -/
def ensureValidToken (s : AdapterState) : Except String String × AdapterState :=
  if !(jsTruthy s.bearerToken) then
    match getBearerToken s with
    | (Except.error e, s1) => (Except.error e, s1)
    | (Except.ok _, s1) => (Except.ok (s1.bearerToken.getD ""), s1)
  else
    (Except.ok (s.bearerToken.getD ""), s)

/-- makeWorkfrontRequest of src/workfront/index.js: ensure a token is
cached (failures there propagate unwrapped, the call sits before the try
block), build requestOptions whose headers object holds the Authorization
entry from the currently cached token merged with options.headers — an
object the trailing top-level spread of options then REPLACES whenever
options carries a headers object, so such a first request goes out with
exactly the headers the caller supplied, an Authorization entry among
them only if the caller wrote one — and issue the request. A 401 first
response triggers exactly one getBearerToken and one retry: the renewal
writes the Authorization entry of the renewed cached token into the
headers object in place, so the retry always carries it; the retry
response is final. Any other non-2xx throws with status and body. Errors
raised inside the try block are rewrapped as
"Workfront request error: ...". -/
def makeWorkfrontRequest (s : AdapterState) (options : RequestOptions) :
    Except String String × AdapterState :=
  match ensureValidToken s with
  | (Except.error e, s1) => (Except.error e, s1)
  | (Except.ok _, s1) =>
    let auth : Option String :=
      match options.headers with
      | none => some (s1.bearerToken.getD "")
      | some hs => hs.lookup "Authorization"
    match s1.apiResponses with
    | [] =>
        (Except.error "Workfront request error: fetch failed",
         { s1 with apiFetches := s1.apiFetches ++ [auth] })
    | r :: rest =>
      let s2 : AdapterState :=
        { s1 with apiResponses := rest, apiFetches := s1.apiFetches ++ [auth] }
      if r.status == 401 then
        match getBearerToken s2 with
        | (Except.error e, s3) =>
            (Except.error ("Workfront request error: " ++ e), s3)
        | (Except.ok _, s3) =>
          let auth2 : Option String := some (s3.bearerToken.getD "")
          match s3.apiResponses with
          | [] =>
              (Except.error "Workfront request error: fetch failed",
               { s3 with apiFetches := s3.apiFetches ++ [auth2] })
          | r2 :: rest2 =>
            let s4 : AdapterState :=
              { s3 with apiResponses := rest2, apiFetches := s3.apiFetches ++ [auth2] }
            if !r2.ok then
              (Except.error ("Workfront request error: Workfront API error after token renewal: "
                  ++ toString r2.status ++ " - " ++ r2.body), s4)
            else
              (Except.ok r2.body, s4)
      else if !r.ok then
        (Except.error ("Workfront request error: Workfront API error: "
            ++ toString r.status ++ " - " ++ r.body), s2)
      else
        (Except.ok r.body, s2)

end Workfront

namespace AEM

/-- getBearerToken of the AEM server file: one POST to the IMS token
endpoint through makeRequest (whose try/catch turns network-level
failures into "Request failed: ..."); a non-2xx throws the authentication
error carrying status and stringified data; a successful response whose
access_token is absent or empty throws the no-token error; otherwise the
token is stored in the process-wide cache and returned. No rewrapping. -/
def getBearerToken (s : AdapterState) : Except String String × AdapterState :=
  match s.tokenResponses with
  | [] =>
      (Except.error "Request failed: fetch failed",
       { s with tokenFetches := s.tokenFetches + 1 })
  | r :: rest =>
      let s1 : AdapterState :=
        { s with tokenResponses := rest, tokenFetches := s.tokenFetches + 1 }
      if !r.ok then
        (Except.error ("Adobe IMS authentication error: "
            ++ toString r.status ++ " - " ++ r.body), s1)
      else
        match r.accessToken with
        | none =>
            (Except.error "No access_token received from Adobe IMS", s1)
        | some t =>
            if t == "" then
              (Except.error "No access_token received from Adobe IMS", s1)
            else
              (Except.ok t, { s1 with bearerToken := some t })

/-- ensureValidToken of the AEM server file: same presence check as the
Workfront variant. -/
def ensureValidToken (s : AdapterState) : Except String String × AdapterState :=
  if !(jsTruthy s.bearerToken) then
    match getBearerToken s with
    | (Except.error e, s1) => (Except.error e, s1)
    | (Except.ok _, s1) => (Except.ok (s1.bearerToken.getD ""), s1)
  else
    (Except.ok (s.bearerToken.getD ""), s)

/-- makeAEMRequest of the AEM server file: ensure a token is cached,
attach the currently cached token, issue the request through makeRequest.
Unlike the Workfront variant, options.headers is spread INSIDE the built
headers object (a merge, not a replacement) and no caller passes custom
headers, so the Authorization entry of the cached token is always
attached. Every non-2xx response, 401 included, throws immediately with
status and stringified body; there is no renewal branch and no retry. -/
def makeAEMRequest (s : AdapterState) : Except String String × AdapterState :=
  match ensureValidToken s with
  | (Except.error e, s1) => (Except.error e, s1)
  | (Except.ok _, s1) =>
    let auth : Option String := some (s1.bearerToken.getD "")
    match s1.apiResponses with
    | [] =>
        (Except.error "Request failed: fetch failed",
         { s1 with apiFetches := s1.apiFetches ++ [auth] })
    | r :: rest =>
      let s2 : AdapterState :=
        { s1 with apiResponses := rest, apiFetches := s1.apiFetches ++ [auth] }
      if !r.ok then
        (Except.error ("AEM API error: " ++ toString r.status ++ " - " ++ r.body), s2)
      else
        (Except.ok r.body, s2)

end AEM

/-- The environment variables either adapter reads at process start.
`baseUrl` stands for WORKFRONT_BASE_URL resp. AEM_BASE_URL; the other
fields are the shared ADOBE_IMS_* variables. -/
structure EnvVars where
  baseUrl : Option String
  clientId : Option String
  clientSecret : Option String
  tokenUrl : Option String
  scopes : Option String
  deriving Repr, DecidableEq

/-- process.env lookup by variable name, parameterised by the adapter's
base-URL variable name. -/
def lookupEnv (baseUrlVar : String) (e : EnvVars) (name : String) : Option String :=
  if name == baseUrlVar then e.baseUrl
  else if name == "ADOBE_IMS_CLIENT_ID" then e.clientId
  else if name == "ADOBE_IMS_CLIENT_SECRET" then e.clientSecret
  else if name == "ADOBE_IMS_TOKEN_URL" then e.tokenUrl
  else if name == "ADOBE_IMS_SCOPES" then e.scopes
  else none

/-- The IMS configuration block built at startup. -/
structure ImsConfig where
  tokenUrl : String
  clientId : String
  clientSecret : String
  scope : String
  deriving Repr, DecidableEq

/-- The adapter configuration object built at startup. -/
structure Config where
  baseUrl : String
  bearerToken : Option String
  imsConfig : ImsConfig
  deriving Repr, DecidableEq

/-- Default IMS token endpoint, shared by both adapters. -/
def defaultTokenUrl : String := "https://ims-na1.adobelogin.com/ims/token/v3"

namespace Workfront

/-- requiredEnvVars of src/workfront/index.js. -/
def requiredEnvVars : List String :=
  ["WORKFRONT_BASE_URL", "ADOBE_IMS_CLIENT_ID", "ADOBE_IMS_CLIENT_SECRET"]

/-- missingEnvVars of src/workfront/index.js: the required variables whose
value is falsy. -/
def missingEnvVars (e : EnvVars) : List String :=
  requiredEnvVars.filter (fun n => !(jsTruthy (lookupEnv "WORKFRONT_BASE_URL" e n)))

/-- Default ADOBE_IMS_SCOPES of src/workfront/index.js. -/
def defaultScope : String :=
  "openid,AdobeID,session,additional_info.projectedProductContext,profile,read_organizations,additional_info.roles"

/-- Module-level startup of src/workfront/index.js: runs before the
server object is created and before any network request is issued; a
nonempty missing-variable list makes the process exit with code 1,
otherwise WORKFRONT_CONFIG is built with the defaulted token URL and
scope and an empty token cache. -/
def startup (e : EnvVars) : Except Nat Config :=
  if (missingEnvVars e).length > 0 then Except.error 1
  else Except.ok
    { baseUrl := e.baseUrl.getD ""
      bearerToken := none
      imsConfig :=
        { tokenUrl := jsOr e.tokenUrl defaultTokenUrl
          clientId := e.clientId.getD ""
          clientSecret := e.clientSecret.getD ""
          scope := jsOr e.scopes defaultScope } }

end Workfront

namespace AEM

/-- requiredEnvVars of the AEM server file. -/
def requiredEnvVars : List String :=
  ["AEM_BASE_URL", "ADOBE_IMS_CLIENT_ID", "ADOBE_IMS_CLIENT_SECRET"]

/-- missingEnvVars of the AEM server file. -/
def missingEnvVars (e : EnvVars) : List String :=
  requiredEnvVars.filter (fun n => !(jsTruthy (lookupEnv "AEM_BASE_URL" e n)))

/-- Default ADOBE_IMS_SCOPES of the AEM server file. -/
def defaultScope : String :=
  "openid,AdobeID,aem.assets.author,aem.folders,aem.fragments.management"

/-- Module-level startup of the AEM server file, analogous to the
Workfront one. -/
def startup (e : EnvVars) : Except Nat Config :=
  if (missingEnvVars e).length > 0 then Except.error 1
  else Except.ok
    { baseUrl := e.baseUrl.getD ""
      bearerToken := none
      imsConfig :=
        { tokenUrl := jsOr e.tokenUrl defaultTokenUrl
          clientId := e.clientId.getD ""
          clientSecret := e.clientSecret.getD ""
          scope := jsOr e.scopes defaultScope } }

end AEM

/-- One content item of a tool response. -/
structure ContentItem where
  type : String
  text : String
  deriving Repr, DecidableEq

/-- A tool response as returned to the MCP host; in the source the
isError flag is present only on error responses, absence modelled as
false. -/
structure ToolResponse where
  content : List ContentItem
  isError : Bool
  deriving Repr, DecidableEq

/-- The dispatch chain of the CallToolRequestSchema handler in
setupHandlers: look the tool name up among the implemented tools; an
unknown name throws "Unknown tool: ...". `impls` maps each implemented
tool name to the outcome of running its implementation, a thrown error
modelled as Except.error. -/
def dispatchTool (impls : String → Option (Except String ToolResponse))
    (name : String) : Except String ToolResponse :=
  match impls name with
  | some r => r
  | none => Except.error ("Unknown tool: " ++ name)

/-- The try/catch boundary of the CallToolRequestSchema handler in
setupHandlers (identical in both adapters): any error thrown while
running the selected tool is converted into a text response flagged
isError; a normal result passes through. The handler is total: no error
escapes to the process level. -/
def callToolHandler (impls : String → Option (Except String ToolResponse))
    (name : String) : ToolResponse :=
  match dispatchTool impls name with
  | Except.ok r => r
  | Except.error e =>
      { content := [{ type := "text", text := "Error: " ++ e }], isError := true }

/-- Outcome of one Workfront get tool invocation (these call
makeWorkfrontRequest with no options object) that performs a single
authenticated request, the response formatting abstracted to the raw
body: a thrown error from the request propagates to the handler. -/
def runWorkfrontTool (s : AdapterState) : Except String ToolResponse :=
  match Workfront.makeWorkfrontRequest s { headers := none } with
  | (Except.ok body, _) =>
      Except.ok { content := [{ type := "text", text := body }], isError := false }
  | (Except.error e, _) => Except.error e

/-- C3: in both adapters, whenever the token endpoint answers an acquire
with HTTP 2xx and a JSON body carrying a non-empty access_token, the
token string is stored in the process-wide cached-token slot and returned
to the caller. -/
theorem c3_acquire_success_caches
    (s sa : AdapterState) (r ra : HttpResponse) (rest resta : List HttpResponse)
    (t ta : String)
    (hs : s.tokenResponses = r :: rest) (hok : r.ok = true)
    (hacc : r.accessToken = some t) (ht : t ≠ "")
    (hsa : sa.tokenResponses = ra :: resta) (hoka : ra.ok = true)
    (hacca : ra.accessToken = some ta) (hta : ta ≠ "") :
    Workfront.getBearerToken s =
      (Except.ok t,
       { s with tokenResponses := rest, tokenFetches := s.tokenFetches + 1,
                bearerToken := some t }) ∧
    AEM.getBearerToken sa =
      (Except.ok ta,
       { sa with tokenResponses := resta, tokenFetches := sa.tokenFetches + 1,
                 bearerToken := some ta }) := by
  constructor
  · simp [Workfront.getBearerToken, hs, hok, hacc, ht]
  · simp [AEM.getBearerToken, hsa, hoka, hacca, hta]

/-- C3 witness: a concrete 200 response carrying access_token "T" is
cached and returned by both adapters. -/
theorem c3_witness :
    Workfront.getBearerToken
        { bearerToken := none,
          tokenResponses := [{ status := 200, accessToken := some "T", body := "" }],
          apiResponses := [], tokenFetches := 0, apiFetches := [] } =
      (Except.ok "T",
       { bearerToken := some "T", tokenResponses := [], apiResponses := [],
         tokenFetches := 1, apiFetches := [] }) ∧
    AEM.getBearerToken
        { bearerToken := none,
          tokenResponses := [{ status := 200, accessToken := some "T", body := "" }],
          apiResponses := [], tokenFetches := 0, apiFetches := [] } =
      (Except.ok "T",
       { bearerToken := some "T", tokenResponses := [], apiResponses := [],
         tokenFetches := 1, apiFetches := [] }) :=
  c3_acquire_success_caches _ _ _ _ _ _ "T" "T" rfl (by decide) rfl (by decide)
    rfl (by decide) rfl (by decide)

/-- If the string p followed by anything equals q, then p is the length-p
prefix of q. Used to separate the two acquire failure messages. -/
theorem data_prefix_of_append_eq (p x q : String) (h : p ++ x = q) :
    q.data.take p.data.length = p.data := by
  have hd : p.data ++ x.data = q.data := by
    rw [← String.data_append, h]
  rw [← hd, List.take_left]

/-- C4: in both adapters, a non-2xx token-endpoint response makes acquire
fail with the authentication error carrying the HTTP status and response
body; a 2xx response lacking access_token fails with the no-token error;
the two messages are distinct for every status and body; and in either
case exactly one token request was issued, with no automatic retry. -/
theorem c4_acquire_failure_modes
    (s s2 : AdapterState) (rb rn : HttpResponse) (rest rest2 : List HttpResponse)
    (hs : s.tokenResponses = rb :: rest) (hbad : rb.ok = false)
    (hs2 : s2.tokenResponses = rn :: rest2) (hok : rn.ok = true)
    (hacc : rn.accessToken = none) :
    Workfront.getBearerToken s =
      (Except.error ("Token retrieval error: Adobe IMS authentication error: "
          ++ toString rb.status ++ " - " ++ rb.body),
       { s with tokenResponses := rest, tokenFetches := s.tokenFetches + 1 }) ∧
    Workfront.getBearerToken s2 =
      (Except.error "Token retrieval error: No access_token received from Adobe IMS",
       { s2 with tokenResponses := rest2, tokenFetches := s2.tokenFetches + 1 }) ∧
    AEM.getBearerToken s =
      (Except.error ("Adobe IMS authentication error: "
          ++ toString rb.status ++ " - " ++ rb.body),
       { s with tokenResponses := rest, tokenFetches := s.tokenFetches + 1 }) ∧
    AEM.getBearerToken s2 =
      (Except.error "No access_token received from Adobe IMS",
       { s2 with tokenResponses := rest2, tokenFetches := s2.tokenFetches + 1 }) ∧
    (∀ (n : Nat) (b : String),
      "Token retrieval error: Adobe IMS authentication error: " ++ toString n ++ " - " ++ b ≠
        "Token retrieval error: No access_token received from Adobe IMS") ∧
    (∀ (n : Nat) (b : String),
      "Adobe IMS authentication error: " ++ toString n ++ " - " ++ b ≠
        "No access_token received from Adobe IMS") := by
  refine ⟨?_, ?_, ?_, ?_, ?_, ?_⟩
  · simp [Workfront.getBearerToken, hs, hbad]
  · simp [Workfront.getBearerToken, hs2, hok, hacc]
  · simp [AEM.getBearerToken, hs, hbad]
  · simp [AEM.getBearerToken, hs2, hok, hacc]
  · intro n b h
    rw [String.append_assoc, String.append_assoc] at h
    have hp := data_prefix_of_append_eq _ _ _ h
    exact absurd hp (by decide)
  · intro n b h
    rw [String.append_assoc, String.append_assoc] at h
    have hp := data_prefix_of_append_eq _ _ _ h
    exact absurd hp (by decide)

/-- C4 witness: concrete 500 and token-less 200 responses produce the two
distinct failure messages with exactly one token request each. -/
theorem c4_witness :
    Workfront.getBearerToken
        { bearerToken := none,
          tokenResponses := [{ status := 500, accessToken := none, body := "boom" }],
          apiResponses := [], tokenFetches := 0, apiFetches := [] } =
      (Except.error "Token retrieval error: Adobe IMS authentication error: 500 - boom",
       { bearerToken := none, tokenResponses := [], apiResponses := [],
         tokenFetches := 1, apiFetches := [] }) ∧
    Workfront.getBearerToken
        { bearerToken := none,
          tokenResponses := [{ status := 200, accessToken := none, body := "{}" }],
          apiResponses := [], tokenFetches := 0, apiFetches := [] } =
      (Except.error "Token retrieval error: No access_token received from Adobe IMS",
       { bearerToken := none, tokenResponses := [], apiResponses := [],
         tokenFetches := 1, apiFetches := [] }) := by
  have h := c4_acquire_failure_modes
    { bearerToken := none,
      tokenResponses := [{ status := 500, accessToken := none, body := "boom" }],
      apiResponses := [], tokenFetches := 0, apiFetches := [] }
    { bearerToken := none,
      tokenResponses := [{ status := 200, accessToken := none, body := "{}" }],
      apiResponses := [], tokenFetches := 0, apiFetches := [] }
    { status := 500, accessToken := none, body := "boom" }
    { status := 200, accessToken := none, body := "{}" }
    [] [] rfl (by decide) rfl (by decide) rfl
  exact ⟨h.1, h.2.1⟩

/-- C10: in both adapters, a failed acquire — non-2xx token response, or
2xx lacking access_token (absent or empty) — leaves the process-wide
cached token exactly as it was and yields an error. -/
theorem c10_failed_acquire_preserves_cache
    (s : AdapterState) (r : HttpResponse) (rest : List HttpResponse)
    (hs : s.tokenResponses = r :: rest)
    (hfail : r.ok = false ∨ r.accessToken = none ∨ r.accessToken = some "") :
    (Workfront.getBearerToken s).2.bearerToken = s.bearerToken ∧
    (∃ e, (Workfront.getBearerToken s).1 = Except.error e) ∧
    (AEM.getBearerToken s).2.bearerToken = s.bearerToken ∧
    (∃ e, (AEM.getBearerToken s).1 = Except.error e) := by
  rcases hfail with hbad | hacc | hacc
  · refine ⟨?_, ?_, ?_, ?_⟩ <;>
      simp [Workfront.getBearerToken, AEM.getBearerToken, hs, hbad]
  · rcases hok : r.ok with _ | _ <;>
      refine ⟨?_, ?_, ?_, ?_⟩ <;>
        simp [Workfront.getBearerToken, AEM.getBearerToken, hs, hok, hacc]
  · rcases hok : r.ok with _ | _ <;>
      refine ⟨?_, ?_, ?_, ?_⟩ <;>
        simp [Workfront.getBearerToken, AEM.getBearerToken, hs, hok, hacc]

/-- C10 witness: a concrete 403 token response leaves an existing cached
token "old" in place in both adapters. -/
theorem c10_witness :
    (Workfront.getBearerToken
        { bearerToken := some "old",
          tokenResponses := [{ status := 403, accessToken := none, body := "denied" }],
          apiResponses := [], tokenFetches := 0, apiFetches := [] }).2.bearerToken
      = some "old" ∧
    (∃ e, (Workfront.getBearerToken
        { bearerToken := some "old",
          tokenResponses := [{ status := 403, accessToken := none, body := "denied" }],
          apiResponses := [], tokenFetches := 0, apiFetches := [] }).1 = Except.error e) := by
  have h := c10_failed_acquire_preserves_cache
    { bearerToken := some "old",
      tokenResponses := [{ status := 403, accessToken := none, body := "denied" }],
      apiResponses := [], tokenFetches := 0, apiFetches := [] }
    { status := 403, accessToken := none, body := "denied" } [] rfl (Or.inl (by decide))
  exact ⟨h.1, h.2.1⟩

/-- Every run of the Workfront acquire issues exactly one POST to the
token endpoint, whatever the response. -/
theorem wf_acquire_fetch_count (s : AdapterState) :
    (Workfront.getBearerToken s).2.tokenFetches = s.tokenFetches + 1 := by
  simp only [Workfront.getBearerToken]
  cases htr : s.tokenResponses with
  | nil => rfl
  | cons r rest =>
    dsimp only
    split
    · rfl
    · split
      · rfl
      · split
        · rfl
        · rfl

/-- Every run of the AEM acquire issues exactly one POST to the token
endpoint, whatever the response. -/
theorem aem_acquire_fetch_count (s : AdapterState) :
    (AEM.getBearerToken s).2.tokenFetches = s.tokenFetches + 1 := by
  simp only [AEM.getBearerToken]
  cases htr : s.tokenResponses with
  | nil => rfl
  | cons r rest =>
    dsimp only
    split
    · rfl
    · split
      · rfl
      · split
        · rfl
        · rfl

/-- With a falsy cached slot, ensureValidToken ends in exactly the state
acquire leaves behind (Workfront). -/
theorem wf_ensure_state_of_falsy (s : AdapterState)
    (hn : jsTruthy s.bearerToken = false) :
    (Workfront.ensureValidToken s).2 = (Workfront.getBearerToken s).2 := by
  unfold Workfront.ensureValidToken
  rw [if_pos (show (!jsTruthy s.bearerToken) = true by rw [hn]; rfl)]
  cases hgb : Workfront.getBearerToken s with
  | mk res s1 => cases res <;> rfl

/-- With a falsy cached slot, ensureValidToken ends in exactly the state
acquire leaves behind (AEM). -/
theorem aem_ensure_state_of_falsy (s : AdapterState)
    (hn : jsTruthy s.bearerToken = false) :
    (AEM.ensureValidToken s).2 = (AEM.getBearerToken s).2 := by
  unfold AEM.ensureValidToken
  rw [if_pos (show (!jsTruthy s.bearerToken) = true by rw [hn]; rfl)]
  cases hgb : AEM.getBearerToken s with
  | mk res s1 => cases res <;> rfl

/-- C5: in both adapters ensureValidToken is a pure presence check: with
any (possibly long-expired) token cached it returns that token and leaves
the whole state — cache, pending responses and request counters — exactly
unchanged, so zero network calls happen; with no token cached it invokes
acquire, issuing exactly one token-endpoint POST. -/
theorem c5_ensure_valid_presence_check
    (s sn : AdapterState) (t : String) (ht : t ≠ "")
    (hs : s.bearerToken = some t) (hn : sn.bearerToken = none) :
    Workfront.ensureValidToken s = (Except.ok t, s) ∧
    AEM.ensureValidToken s = (Except.ok t, s) ∧
    (Workfront.ensureValidToken sn).2.tokenFetches = sn.tokenFetches + 1 ∧
    (AEM.ensureValidToken sn).2.tokenFetches = sn.tokenFetches + 1 := by
  refine ⟨?_, ?_, ?_, ?_⟩
  · simp [Workfront.ensureValidToken, jsTruthy, hs, ht]
  · simp [AEM.ensureValidToken, jsTruthy, hs, ht]
  · rw [wf_ensure_state_of_falsy sn (by simp [jsTruthy, hn])]
    exact wf_acquire_fetch_count sn
  · rw [aem_ensure_state_of_falsy sn (by simp [jsTruthy, hn])]
    exact aem_acquire_fetch_count sn

/-- C5 witness: with "T" cached both adapters return it with the state,
oracles included, untouched; with nothing cached one token POST goes out. -/
theorem c5_witness :
    Workfront.ensureValidToken
        { bearerToken := some "T",
          tokenResponses := [{ status := 200, accessToken := some "U", body := "" }],
          apiResponses := [], tokenFetches := 0, apiFetches := [] } =
      (Except.ok "T",
       { bearerToken := some "T",
         tokenResponses := [{ status := 200, accessToken := some "U", body := "" }],
         apiResponses := [], tokenFetches := 0, apiFetches := [] }) ∧
    (Workfront.ensureValidToken
        { bearerToken := none,
          tokenResponses := [{ status := 200, accessToken := some "U", body := "" }],
          apiResponses := [], tokenFetches := 0, apiFetches := [] }).2.tokenFetches = 1 := by
  have h := c5_ensure_valid_presence_check
    { bearerToken := some "T",
      tokenResponses := [{ status := 200, accessToken := some "U", body := "" }],
      apiResponses := [], tokenFetches := 0, apiFetches := [] }
    { bearerToken := none,
      tokenResponses := [{ status := 200, accessToken := some "U", body := "" }],
      apiResponses := [], tokenFetches := 0, apiFetches := [] }
    "T" (by decide) rfl rfl
  exact ⟨h.1, h.2.2.1⟩

/-- With a non-empty token cached, the Workfront ensureValidToken returns
it and leaves the state untouched. -/
theorem wf_ensure_cached (s : AdapterState) (t : String) (ht : t ≠ "")
    (hs : s.bearerToken = some t) :
    Workfront.ensureValidToken s = (Except.ok t, s) := by
  simp [Workfront.ensureValidToken, jsTruthy, hs, ht]

/-- With a non-empty token cached, the AEM ensureValidToken returns it
and leaves the state untouched. -/
theorem aem_ensure_cached (s : AdapterState) (t : String) (ht : t ≠ "")
    (hs : s.bearerToken = some t) :
    AEM.ensureValidToken s = (Except.ok t, s) := by
  simp [AEM.ensureValidToken, jsTruthy, hs, ht]

/-- C2: when a Workfront authenticated request gets 401, renews the token
successfully, and the retried request gets 401 again, the second 401 is
surfaced as the final error carrying its status and body, exactly two
downstream requests and one renewal were issued, and no third attempt is
made (the remaining oracle is untouched). -/
theorem c2_double_401_final
    (s : AdapterState) (t0 t1 : String) (r1 r2 tr : HttpResponse)
    (rest : List HttpResponse) (trest : List HttpResponse)
    (hs : s.bearerToken = some t0) (ht0 : t0 ≠ "")
    (hapi : s.apiResponses = r1 :: r2 :: rest) (h401 : r1.status = 401)
    (htok : s.tokenResponses = tr :: trest) (htrok : tr.ok = true)
    (htracc : tr.accessToken = some t1) (ht1 : t1 ≠ "")
    (h401b : r2.status = 401) :
    Workfront.makeWorkfrontRequest s { headers := none } =
      (Except.error ("Workfront request error: Workfront API error after token renewal: "
          ++ toString r2.status ++ " - " ++ r2.body),
       { s with bearerToken := some t1, tokenResponses := trest,
                apiResponses := rest, tokenFetches := s.tokenFetches + 1,
                apiFetches := s.apiFetches ++ [some t0, some t1] }) := by
  have hens := wf_ensure_cached s t0 ht0 hs
  have hr2ok : r2.ok = false := by simp [HttpResponse.ok, h401b]
  simp [Workfront.makeWorkfrontRequest, hens, hapi, h401, Workfront.getBearerToken,
    htok, htrok, htracc, ht1, hs, h401b, hr2ok]

/-- C2 witness: a concrete double-401 run ends in the renewal-failure
error after exactly two downstream requests and one renewal. -/
theorem c2_witness :
    Workfront.makeWorkfrontRequest
        { bearerToken := some "A",
          tokenResponses := [{ status := 200, accessToken := some "B", body := "" }],
          apiResponses := [{ status := 401, accessToken := none, body := "x" },
                           { status := 401, accessToken := none, body := "y" }],
          tokenFetches := 0, apiFetches := [] }
        { headers := none } =
      (Except.error "Workfront request error: Workfront API error after token renewal: 401 - y",
       { bearerToken := some "B", tokenResponses := [], apiResponses := [],
         tokenFetches := 1, apiFetches := [some "A", some "B"] }) := by
  have h := c2_double_401_final
    { bearerToken := some "A",
      tokenResponses := [{ status := 200, accessToken := some "B", body := "" }],
      apiResponses := [{ status := 401, accessToken := none, body := "x" },
                       { status := 401, accessToken := none, body := "y" }],
      tokenFetches := 0, apiFetches := [] }
    "A" "B"
    { status := 401, accessToken := none, body := "x" }
    { status := 401, accessToken := none, body := "y" }
    { status := 200, accessToken := some "B", body := "" }
    [] [] rfl (by decide) rfl rfl rfl (by decide) rfl (by decide) rfl
  exact h

/-- C1 counterexample: the AEM adapter, given a first response of 401
with a working renewal token and a 200 available in the oracle, performs
zero acquire calls and issues no second request: it throws the 401 as
final, leaving the token oracle untouched and exactly one recorded
downstream request, where the claim requires one renewal and a retry. -/
theorem c1_counterexample :
    (AEM.makeAEMRequest
        { bearerToken := some "A",
          tokenResponses := [{ status := 200, accessToken := some "B", body := "" }],
          apiResponses := [{ status := 401, accessToken := none, body := "x" },
                           { status := 200, accessToken := none, body := "ok" }],
          tokenFetches := 0, apiFetches := [] }).1
      = Except.error "AEM API error: 401 - x" ∧
    (AEM.makeAEMRequest
        { bearerToken := some "A",
          tokenResponses := [{ status := 200, accessToken := some "B", body := "" }],
          apiResponses := [{ status := 401, accessToken := none, body := "x" },
                           { status := 200, accessToken := none, body := "ok" }],
          tokenFetches := 0, apiFetches := [] }).2.tokenFetches = 0 ∧
    (AEM.makeAEMRequest
        { bearerToken := some "A",
          tokenResponses := [{ status := 200, accessToken := some "B", body := "" }],
          apiResponses := [{ status := 401, accessToken := none, body := "x" },
                           { status := 200, accessToken := none, body := "ok" }],
          tokenFetches := 0, apiFetches := [] }).2.apiFetches = [some "A"] := by
  refine ⟨rfl, rfl, rfl⟩

/-- C1 amended: in the Workfront adapter a first response of exactly 401
triggers acquire exactly once, one re-issue of the request with the
renewed token, and the second response is final whatever it is; in the
AEM adapter a 401 first response is surfaced immediately as the final
error carrying status and body, with no acquire and no re-issue. -/
theorem c1_amended_single_retry
    (s sa : AdapterState) (t0 t1 ta0 : String)
    (r1 r2 tr ra : HttpResponse) (rest trest resta : List HttpResponse)
    (hs : s.bearerToken = some t0) (ht0 : t0 ≠ "")
    (hapi : s.apiResponses = r1 :: r2 :: rest) (h401 : r1.status = 401)
    (htok : s.tokenResponses = tr :: trest) (htrok : tr.ok = true)
    (htracc : tr.accessToken = some t1) (ht1 : t1 ≠ "")
    (hsa : sa.bearerToken = some ta0) (hta0 : ta0 ≠ "")
    (hapia : sa.apiResponses = ra :: resta) (hra : ra.status = 401) :
    Workfront.makeWorkfrontRequest s { headers := none } =
      ((if r2.ok then Except.ok r2.body
        else Except.error ("Workfront request error: Workfront API error after token renewal: "
            ++ toString r2.status ++ " - " ++ r2.body)),
       { s with bearerToken := some t1, tokenResponses := trest,
                apiResponses := rest, tokenFetches := s.tokenFetches + 1,
                apiFetches := s.apiFetches ++ [some t0, some t1] }) ∧
    AEM.makeAEMRequest sa =
      (Except.error ("AEM API error: " ++ toString ra.status ++ " - " ++ ra.body),
       { sa with apiResponses := resta, apiFetches := sa.apiFetches ++ [some ta0] }) := by
  constructor
  · have hens := wf_ensure_cached s t0 ht0 hs
    cases hr2 : r2.ok <;>
      simp [Workfront.makeWorkfrontRequest, hens, hapi, h401, Workfront.getBearerToken,
        htok, htrok, htracc, ht1, hs, hr2]
  · have hens := aem_ensure_cached sa ta0 hta0 hsa
    have hraok : ra.ok = false := by simp [HttpResponse.ok, hra]
    simp [AEM.makeAEMRequest, hens, hapia, hraok, hsa]

/-- C1 witness: concrete 401-then-200 runs: the Workfront adapter renews
once and returns the 200 body; the AEM adapter throws the 401 as final. -/
theorem c1_witness :
    Workfront.makeWorkfrontRequest
        { bearerToken := some "A",
          tokenResponses := [{ status := 200, accessToken := some "B", body := "" }],
          apiResponses := [{ status := 401, accessToken := none, body := "x" },
                           { status := 200, accessToken := none, body := "ok" }],
          tokenFetches := 0, apiFetches := [] }
        { headers := none } =
      (Except.ok "ok",
       { bearerToken := some "B", tokenResponses := [], apiResponses := [],
         tokenFetches := 1, apiFetches := [some "A", some "B"] }) ∧
    AEM.makeAEMRequest
        { bearerToken := some "A",
          tokenResponses := [{ status := 200, accessToken := some "B", body := "" }],
          apiResponses := [{ status := 401, accessToken := none, body := "x" }],
          tokenFetches := 0, apiFetches := [] } =
      (Except.error "AEM API error: 401 - x",
       { bearerToken := some "A",
         tokenResponses := [{ status := 200, accessToken := some "B", body := "" }],
         apiResponses := [], tokenFetches := 0, apiFetches := [some "A"] }) := by
  have h := c1_amended_single_retry
    { bearerToken := some "A",
      tokenResponses := [{ status := 200, accessToken := some "B", body := "" }],
      apiResponses := [{ status := 401, accessToken := none, body := "x" },
                       { status := 200, accessToken := none, body := "ok" }],
      tokenFetches := 0, apiFetches := [] }
    { bearerToken := some "A",
      tokenResponses := [{ status := 200, accessToken := some "B", body := "" }],
      apiResponses := [{ status := 401, accessToken := none, body := "x" }],
      tokenFetches := 0, apiFetches := [] }
    "A" "B" "A"
    { status := 401, accessToken := none, body := "x" }
    { status := 200, accessToken := none, body := "ok" }
    { status := 200, accessToken := some "B", body := "" }
    { status := 401, accessToken := none, body := "x" }
    [] [] []
    rfl (by decide) rfl rfl rfl (by decide) rfl (by decide)
    rfl (by decide) rfl rfl
  exact ⟨by simpa using h.1, h.2⟩

/-- C7: any non-2xx status other than 401 is surfaced as a final error
carrying status and body and is never retried: on a Workfront first
request (one downstream request recorded, the token oracle untouched), on
a Workfront retried request (exactly two downstream requests, one
renewal, nothing further), and on an AEM request. -/
theorem c7_non401_final_error
    (s su sa : AdapterState) (t0 u0 u1 ta0 : String)
    (r ru1 ru2 tru ra : HttpResponse)
    (rest restu tres resta : List HttpResponse)
    (hs : s.bearerToken = some t0) (ht0 : t0 ≠ "")
    (hapi : s.apiResponses = r :: rest) (hr401 : r.status ≠ 401)
    (hrok : r.ok = false)
    (hsu : su.bearerToken = some u0) (hu0 : u0 ≠ "")
    (hapiu : su.apiResponses = ru1 :: ru2 :: restu) (hu401 : ru1.status = 401)
    (htoku : su.tokenResponses = tru :: tres) (htruok : tru.ok = true)
    (htruacc : tru.accessToken = some u1) (hu1 : u1 ≠ "")
    (hru2ok : ru2.ok = false)
    (hsa : sa.bearerToken = some ta0) (hta0 : ta0 ≠ "")
    (hapia : sa.apiResponses = ra :: resta) (_hra401 : ra.status ≠ 401)
    (hraok : ra.ok = false) :
    Workfront.makeWorkfrontRequest s { headers := none } =
      (Except.error ("Workfront request error: Workfront API error: "
          ++ toString r.status ++ " - " ++ r.body),
       { s with apiResponses := rest, apiFetches := s.apiFetches ++ [some t0] }) ∧
    Workfront.makeWorkfrontRequest su { headers := none } =
      (Except.error ("Workfront request error: Workfront API error after token renewal: "
          ++ toString ru2.status ++ " - " ++ ru2.body),
       { su with bearerToken := some u1, tokenResponses := tres,
                 apiResponses := restu, tokenFetches := su.tokenFetches + 1,
                 apiFetches := su.apiFetches ++ [some u0, some u1] }) ∧
    AEM.makeAEMRequest sa =
      (Except.error ("AEM API error: " ++ toString ra.status ++ " - " ++ ra.body),
       { sa with apiResponses := resta, apiFetches := sa.apiFetches ++ [some ta0] }) := by
  refine ⟨?_, ?_, ?_⟩
  · have hens := wf_ensure_cached s t0 ht0 hs
    simp [Workfront.makeWorkfrontRequest, hens, hapi, hr401, hrok, hs]
  · have hens := wf_ensure_cached su u0 hu0 hsu
    simp [Workfront.makeWorkfrontRequest, hens, hapiu, hu401, Workfront.getBearerToken,
      htoku, htruok, htruacc, hu1, hsu, hru2ok]
  · have hens := aem_ensure_cached sa ta0 hta0 hsa
    simp [AEM.makeAEMRequest, hens, hapia, hraok, hsa]

/-- C7 witness: concrete 500 responses on a Workfront first request, on a
Workfront retried request, and on an AEM request are each surfaced as the
final error with status and body and trigger no further request. -/
theorem c7_witness :
    Workfront.makeWorkfrontRequest
        { bearerToken := some "A", tokenResponses := [],
          apiResponses := [{ status := 500, accessToken := none, body := "boom" }],
          tokenFetches := 0, apiFetches := [] }
        { headers := none } =
      (Except.error "Workfront request error: Workfront API error: 500 - boom",
       { bearerToken := some "A", tokenResponses := [], apiResponses := [],
         tokenFetches := 0, apiFetches := [some "A"] }) ∧
    AEM.makeAEMRequest
        { bearerToken := some "A", tokenResponses := [],
          apiResponses := [{ status := 500, accessToken := none, body := "boom" }],
          tokenFetches := 0, apiFetches := [] } =
      (Except.error "AEM API error: 500 - boom",
       { bearerToken := some "A", tokenResponses := [], apiResponses := [],
         tokenFetches := 0, apiFetches := [some "A"] }) := by
  have h := c7_non401_final_error
    { bearerToken := some "A", tokenResponses := [],
      apiResponses := [{ status := 500, accessToken := none, body := "boom" }],
      tokenFetches := 0, apiFetches := [] }
    { bearerToken := some "A",
      tokenResponses := [{ status := 200, accessToken := some "B", body := "" }],
      apiResponses := [{ status := 401, accessToken := none, body := "x" },
                       { status := 503, accessToken := none, body := "down" }],
      tokenFetches := 0, apiFetches := [] }
    { bearerToken := some "A", tokenResponses := [],
      apiResponses := [{ status := 500, accessToken := none, body := "boom" }],
      tokenFetches := 0, apiFetches := [] }
    "A" "A" "B" "A"
    { status := 500, accessToken := none, body := "boom" }
    { status := 401, accessToken := none, body := "x" }
    { status := 503, accessToken := none, body := "down" }
    { status := 200, accessToken := some "B", body := "" }
    { status := 500, accessToken := none, body := "boom" }
    [] [] [] []
    rfl (by decide) rfl (by decide) (by decide)
    rfl (by decide) rfl rfl rfl (by decide) rfl (by decide) (by decide)
    rfl (by decide) rfl (by decide) (by decide)
  exact ⟨h.1, h.2.2⟩

/-- C8 code bug: the claim that every outbound request attaches the
cache-current token is the documented intent (the Workfront README:
"Includes proper Authorization headers in all Workfront API requests",
and the source builds the Authorization entry before merging
options.headers), but the trailing top-level spread of options replaces
that headers object: invoked the way createTask, createProject and
createTaskPredecessor invoke it — a custom Content-Type headers object —
with token "A" cached, the first request is issued with no Authorization
header at all (recorded none), and only the 401-retry then carries the
renewed token "B". -/
theorem c8_code_bug_missing_auth_header :
    (Workfront.makeWorkfrontRequest
        { bearerToken := some "A", tokenResponses := [],
          apiResponses := [{ status := 200, accessToken := none, body := "created" }],
          tokenFetches := 0, apiFetches := [] }
        { headers := some [("Content-Type", "application/x-www-form-urlencoded")] }).2.apiFetches
      = [none] ∧
    (Workfront.makeWorkfrontRequest
        { bearerToken := some "A",
          tokenResponses := [{ status := 200, accessToken := some "B", body := "" }],
          apiResponses := [{ status := 401, accessToken := none, body := "x" },
                           { status := 200, accessToken := none, body := "created" }],
          tokenFetches := 0, apiFetches := [] }
        { headers := some [("Content-Type", "application/x-www-form-urlencoded")] }).2.apiFetches
      = [none, some "B"] ∧
    (Workfront.makeWorkfrontRequest
        { bearerToken := some "A", tokenResponses := [],
          apiResponses := [{ status := 200, accessToken := none, body := "data" }],
          tokenFetches := 0, apiFetches := [] }
        { headers := none }).2.apiFetches
      = [some "A"] := by
  refine ⟨rfl, rfl, rfl⟩

/-- C6: in both adapters, a process start with the client id or the
client secret absent (or empty) exits with code 1 before anything else —
startup consumes no network oracle at all — while a start with the
required variables present but token URL and scope absent succeeds, with
the token URL and scope filled from the adapter defaults. -/
theorem c6_startup_config
    (e em : EnvVars)
    (hmiss : jsTruthy em.clientId = false ∨ jsTruthy em.clientSecret = false)
    (hbase : jsTruthy e.baseUrl = true) (hid : jsTruthy e.clientId = true)
    (hsec : jsTruthy e.clientSecret = true)
    (htok : e.tokenUrl = none) (hscope : e.scopes = none) :
    Workfront.startup em = Except.error 1 ∧
    AEM.startup em = Except.error 1 ∧
    Workfront.startup e = Except.ok
      { baseUrl := e.baseUrl.getD "", bearerToken := none,
        imsConfig :=
          { tokenUrl := defaultTokenUrl, clientId := e.clientId.getD "",
            clientSecret := e.clientSecret.getD "",
            scope := Workfront.defaultScope } } ∧
    AEM.startup e = Except.ok
      { baseUrl := e.baseUrl.getD "", bearerToken := none,
        imsConfig :=
          { tokenUrl := defaultTokenUrl, clientId := e.clientId.getD "",
            clientSecret := e.clientSecret.getD "",
            scope := AEM.defaultScope } } := by
  refine ⟨?_, ?_, ?_, ?_⟩
  · rcases hmiss with h | h <;>
    · cases hb : jsTruthy em.baseUrl <;> cases h2 : jsTruthy em.clientSecret <;>
        cases h3 : jsTruthy em.clientId <;>
          simp_all [Workfront.startup, Workfront.missingEnvVars,
            Workfront.requiredEnvVars, lookupEnv]
  · rcases hmiss with h | h <;>
    · cases hb : jsTruthy em.baseUrl <;> cases h2 : jsTruthy em.clientSecret <;>
        cases h3 : jsTruthy em.clientId <;>
          simp_all [AEM.startup, AEM.missingEnvVars, AEM.requiredEnvVars, lookupEnv]
  · have hm : Workfront.missingEnvVars e = [] := by
      simp [Workfront.missingEnvVars, Workfront.requiredEnvVars, lookupEnv,
        hbase, hid, hsec]
    simp [Workfront.startup, hm, jsOr, jsTruthy, htok, hscope]
  · have hm : AEM.missingEnvVars e = [] := by
      simp [AEM.missingEnvVars, AEM.requiredEnvVars, lookupEnv, hbase, hid, hsec]
    simp [AEM.startup, hm, jsOr, jsTruthy, htok, hscope]

/-- C6 witness: a start missing the client secret exits with code 1 in
both adapters; a start with only the required variables set succeeds and
applies the default token URL and the adapter-specific default scope. -/
theorem c6_witness :
    Workfront.startup
        { baseUrl := some "https://x.workfront.com", clientId := some "id",
          clientSecret := none, tokenUrl := none, scopes := none } = Except.error 1 ∧
    AEM.startup
        { baseUrl := some "https://x.workfront.com", clientId := some "id",
          clientSecret := none, tokenUrl := none, scopes := none } = Except.error 1 ∧
    Workfront.startup
        { baseUrl := some "https://x.workfront.com", clientId := some "id",
          clientSecret := some "sec", tokenUrl := none, scopes := none } =
      Except.ok
        { baseUrl := "https://x.workfront.com", bearerToken := none,
          imsConfig :=
            { tokenUrl := defaultTokenUrl, clientId := "id", clientSecret := "sec",
              scope := Workfront.defaultScope } } := by
  have h := c6_startup_config
    { baseUrl := some "https://x.workfront.com", clientId := some "id",
      clientSecret := some "sec", tokenUrl := none, scopes := none }
    { baseUrl := some "https://x.workfront.com", clientId := some "id",
      clientSecret := none, tokenUrl := none, scopes := none }
    (Or.inr (by decide)) (by decide) (by decide) (by decide) rfl rfl
  exact ⟨h.1, h.2.1, h.2.2.1⟩

/-- C9: every error thrown while running a tool invocation — whatever its
origin: authentication, downstream API, or validation — is caught at the
handler boundary and turned into a user-visible text response flagged
isError, prefixed "Error: "; an unknown tool name is likewise converted;
a successful tool result passes through unchanged. The handler is a
total function, so no invocation error escapes to the process level. -/
theorem c9_error_boundary
    (impls : String → Option (Except String ToolResponse)) (name : String) :
    (∀ e, dispatchTool impls name = Except.error e →
       callToolHandler impls name =
         { content := [{ type := "text", text := "Error: " ++ e }], isError := true }) ∧
    (∀ r, dispatchTool impls name = Except.ok r → callToolHandler impls name = r) ∧
    (impls name = none →
       callToolHandler impls name =
         { content := [{ type := "text", text := "Error: Unknown tool: " ++ name }],
           isError := true }) := by
  refine ⟨?_, ?_, ?_⟩
  · intro e he
    simp [callToolHandler, he]
  · intro r hr
    simp [callToolHandler, hr]
  · intro hn
    simp [callToolHandler, dispatchTool, hn]
    rw [← String.append_assoc]
    rfl

/-- C9 witness: a Workfront tool whose authenticated request fails with a
downstream 500 yields the user-visible error response, and an unknown
tool name yields the unknown-tool error response. -/
theorem c9_witness :
    callToolHandler
        (fun n => if n == "get_project_names" then
          some (runWorkfrontTool
            { bearerToken := some "A", tokenResponses := [],
              apiResponses := [{ status := 500, accessToken := none, body := "boom" }],
              tokenFetches := 0, apiFetches := [] })
          else none)
        "get_project_names" =
      { content :=
          [{ type := "text",
             text := "Error: Workfront request error: Workfront API error: 500 - boom" }],
        isError := true } ∧
    callToolHandler (fun _ => none) "unknown_tool" =
      { content := [{ type := "text", text := "Error: Unknown tool: unknown_tool" }],
        isError := true } := by
  have h := c9_error_boundary
    (fun n => if n == "get_project_names" then
      some (runWorkfrontTool
        { bearerToken := some "A", tokenResponses := [],
          apiResponses := [{ status := 500, accessToken := none, body := "boom" }],
          tokenFetches := 0, apiFetches := [] })
      else none)
    "get_project_names"
  have h2 := c9_error_boundary (fun _ => none) "unknown_tool"
  exact ⟨h.1 "Workfront request error: Workfront API error: 500 - boom" (by rfl),
         h2.2.2 rfl⟩
